import Mathlib

/-!
Shallow embedding of `src/FlashbotsMEVExecutor.ts` (class `FlashbotsMEVExecutor`,
second variant of the file, the one the spec's line references point at), for
checking the natural-language specification against the code.

Conventions:
* `BigNumber` wei amounts become `Nat` (ethers BigNumbers are arbitrary-precision
  integers, and every amount flowing through these paths is non-negative).
* JS `number` scores (`aiScore`, `AI_THRESHOLD`) become `Rat`: the only operation
  performed on them is an order comparison between short decimal literals, on
  which IEEE double order and rational order agree.
* External collaborators (RPC reads, the Flashbots relay's `simulate`, the
  pluggable AI scorer) are parameters of the embedded functions.
-/

namespace MEV

/-- `parseEther("1")` — one ether in wei. -/
def weiPerEther : Nat := 10 ^ 18

/-- `MAX_LOAN_AMOUNT_ETH = 100000` (FlashbotsMEVExecutor.ts line 225). -/
def MAX_LOAN_AMOUNT_ETH : Nat := 100000

/-- `MAX_LOAN_WEI = parseEther(String(MAX_LOAN_AMOUNT_ETH))` (line 302). -/
def MAX_LOAN_WEI : Nat := MAX_LOAN_AMOUNT_ETH * weiPerEther

/-- `AI_THRESHOLD = 0.85` (line 226). -/
def AI_THRESHOLD : Rat := 85 / 100

/-- `MIN_PROFIT_THRESHOLD = parseEther("0.05")` (line 365): 0.05 ether in wei. -/
def MIN_PROFIT_THRESHOLD : Nat := 5 * 10 ^ 16

/-- Loan sizing of `executeFlashLoan` (lines 303-306):
`let loanAmount = estimatedProfit.mul(10); if (loanAmount.gt(MAX_LOAN_WEI)) loanAmount = MAX_LOAN_WEI;` -/
def loanAmountOf (estimatedProfit : Nat) : Nat :=
  let loanAmount := estimatedProfit * 10
  if loanAmount > MAX_LOAN_WEI then MAX_LOAN_WEI else loanAmount

/-- The result record of `analyzeOpportunity`:
`{ isProfitable, estimatedProfit, aiScore }` (line 345). -/
structure Opportunity where
  isProfitable : Bool
  estimatedProfit : Nat
  aiScore : Rat
  deriving Repr, DecidableEq

/-- A Uniswap-V2 `getReserves()` answer: `(reserve0, reserve1, _)` (line 218);
the timestamp field is unused by the code. -/
structure Reserves where
  reserve0 : Nat
  reserve1 : Nat
  deriving Repr, DecidableEq

/-- Implied price of a venue (lines 361-362):
`reserves[0].mul(parseEther("1")).div(reserves[1])` (BigNumber integer division). -/
def priceOf (r : Reserves) : Nat :=
  r.reserve0 * weiPerEther / r.reserve1

/-- `priceA.sub(priceB).abs()` (line 364) for the two implied prices. -/
def priceDifference (rA rB : Reserves) : Nat :=
  ((priceOf rA : Int) - (priceOf rB : Int)).natAbs

/-- `difference.div(100).mul(parseEther("1"))` (line 368): the candidate profit
derived from the price gap. -/
def potentialProfitOf (rA rB : Reserves) : Nat :=
  priceDifference rA rB / 100 * weiPerEther

/-- `analyzeOpportunity` (lines 345-380). The two `getReserves()` reads are
externally supplied; a failure of either (the `Promise.all` rejecting into the
`catch`) is an `Except.error`. The AI score produced on the profitable branch is
the pluggable scorer's output `score` (the code's `Math.random()*0.4+0.6`
placeholder), passed in as a parameter. The function always returns an
`Opportunity`; no fetch error escapes to the caller. -/
def analyzeOpportunity (fetchA fetchB : Except String Reserves) (score : Rat) :
    Opportunity :=
  match fetchA, fetchB with
  | .ok rA, .ok rB =>
    let priceA := priceOf rA
    let difference := priceDifference rA rB
    if difference > priceA / 100 then
      let potentialProfit := potentialProfitOf rA rB
      if potentialProfit > MIN_PROFIT_THRESHOLD then
        { isProfitable := true, estimatedProfit := potentialProfit, aiScore := score }
      else
        { isProfitable := false, estimatedProfit := 0, aiScore := 0 }
    else
      { isProfitable := false, estimatedProfit := 0, aiScore := 0 }
  | _, _ => { isProfitable := false, estimatedProfit := 0, aiScore := 0 }

/-- The monitor's gate in the `pending` handler (lines 274-281): the opportunity
is forwarded to `executeFlashLoan` iff `isProfitable` and `aiScore > AI_THRESHOLD`. -/
def forwardsToExecution (o : Opportunity) : Bool :=
  o.isProfitable && decide (o.aiScore > AI_THRESHOLD)

/-- A fetched pending transaction as the handler sees it; `data` is `none` when
`tx.data` is absent/empty (the falsy case of `!tx.data`, line 270). -/
structure PendingTx where
  hash : String
  data : Option String
  deriving Repr, DecidableEq

/-- The `pending` handler's fetch guard (lines 268-272): `getTransaction` may
return no transaction (`none`); `if (!tx || !tx.data) return;` otherwise the
scorer is invoked on the transaction. The result records the scorer call:
`none` means the handler returned silently without invoking the scorer. -/
def handlePending (fetched : Option PendingTx) (scorer : PendingTx → Opportunity) :
    Option Opportunity :=
  match fetched with
  | none => none
  | some tx =>
    match tx.data with
    | none => none
    | some _ => some (scorer tx)

end MEV

namespace MEV

/-- The single signed transaction of the bundle built by `executeFlashLoan`
(lines 311-330): nonce from the tracker, fixed gas limit 3000000, the sized
loan amount, and a target block of `currentBlockNumber + 1`. -/
structure SignedBundle where
  nonce : Nat
  gasLimit : Nat
  loanAmount : Nat
  targetBlock : Nat
  deriving Repr, DecidableEq

/-- `SimulationResult` as consumed by the code: only the presence of
`simulationResult.error` matters (line 333). -/
structure SimulationResult where
  error : Option String
  deriving Repr, DecidableEq

/-- Outcome of one `executeFlashLoan` run. -/
inductive Outcome where
  | rejected
  | submitted
  deriving Repr, DecidableEq

/-- What one `executeFlashLoan` run did: the bundle passed to `signBundle`, the
bundle passed to `sendBundle` (if any), the tracked nonce afterwards, and the
outcome. -/
structure ExecResult where
  signed : SignedBundle
  sent : Option SignedBundle
  nonce : Nat
  outcome : Outcome
  deriving Repr, DecidableEq

/-- The bundle `executeFlashLoan` builds and signs (lines 302-330). -/
def builtBundle (nonce estimatedProfit blockNumber : Nat) : SignedBundle :=
  { nonce := nonce
    gasLimit := 3000000
    loanAmount := loanAmountOf estimatedProfit
    targetBlock := blockNumber + 1 }

/-- Body of `executeFlashLoan` (lines 298-342) once past the readiness guard:
size the loan, build and sign the bundle at the tracked nonce, simulate against
`blockNumber + 1`; on `simulationResult.error` log and return (no `sendBundle`,
nonce untouched); otherwise `sendBundle` and `this.nonce++`. The relay's
`simulate` is an external collaborator, passed as a function of the signed
bundle and target block. -/
def executeFlashLoanBody (nonce estimatedProfit blockNumber : Nat)
    (simulate : SignedBundle → Nat → SimulationResult) : ExecResult :=
  let bundle := builtBundle nonce estimatedProfit blockNumber
  let simulationResult := simulate bundle (blockNumber + 1)
  match simulationResult.error with
  | some _ =>
    { signed := bundle, sent := none, nonce := nonce, outcome := .rejected }
  | none =>
    { signed := bundle, sent := some bundle, nonce := nonce + 1, outcome := .submitted }

/-- `executeFlashLoan` including its guard (line 299):
`if (!this.flashbotsProvider || this.nonce === undefined) throw new Error(...)`.
A thrown error is the `Except.error` (the fatal path); a normal return is `.ok`. -/
def executeFlashLoan (ready : Bool) (nonce : Option Nat)
    (estimatedProfit blockNumber : Nat)
    (simulate : SignedBundle → Nat → SimulationResult) :
    Except String ExecResult :=
  match ready, nonce with
  | false, _ => .error "Executor or nonce not ready."
  | true, none => .error "Executor or nonce not ready."
  | true, some n => .ok (executeFlashLoanBody n estimatedProfit blockNumber simulate)

/-- `periodicResync` (lines 382-389): fetch the chain's transaction count; if
the tracked nonce is undefined or the reported count is greater, adopt it. -/
def periodicResync (nonce : Option Nat) (newNonce : Nat) : Option Nat :=
  match nonce with
  | none => some newNonce
  | some n => if newNonce > n then some newNonce else some n

/-- One event touching the tracked nonce: a submission attempt through
`executeFlashLoan` (with the relay's simulate answer for the built bundle), or a
`periodicResync` tick carrying the chain-reported transaction count. -/
inductive NonceEvent where
  | attempt (estimatedProfit blockNumber : Nat)
      (simulate : SignedBundle → Nat → SimulationResult)
  | resync (chainCount : Nat)

/-- How one event transforms the tracked nonce, read off from
`executeFlashLoanBody` and `periodicResync`. -/
def nonceStep (n : Nat) : NonceEvent → Nat
  | .attempt p b sim => (executeFlashLoanBody n p b sim).nonce
  | .resync c => (periodicResync (some n) c).getD n

end MEV

namespace MEV

/-!  Interleaving model for the concurrency claim.

Each `pending` handler that reaches `executeFlashLoan` runs the same code on
the shared field `this.nonce`. The nonce is read when the transaction object is
built for `signBundle` (line 324) and `this.nonce++` runs only after the
`sendBundle` await (line 341); `populateTransaction`, `signBundle`,
`getBlockNumber`, `simulate` and `sendBundle` are all suspension points, and the
source contains no lock or queue around them. A task is therefore at one of
three phases: before capturing the nonce, holding a signed bundle (suspended in
the awaits between `signBundle` and `nonce++`), or done. -/

inductive Phase where
  | start
  | signed (bundleNonce : Nat)
  | done
  deriving Repr, DecidableEq

/-- Shared state for two concurrently running `executeFlashLoan` tasks:
the shared `this.nonce` field, each task's phase, and the nonces of the
`SignedBundle`s produced so far (in `signBundle` order). -/
structure ConcState where
  nonce : Nat
  task1 : Phase
  task2 : Phase
  producedNonces : List Nat
  deriving Repr, DecidableEq

/-- Advance one task by one scheduler slice (clean-simulation path):
from `start` it captures `this.nonce` into a signed bundle; from `signed` it
completes `sendBundle` and runs `this.nonce++`. -/
def phaseStep (nonce : Nat) : Phase → Phase × Nat × Option Nat
  | .start => (.signed nonce, nonce, some nonce)
  | .signed _ => (.done, nonce + 1, none)
  | .done => (.done, nonce, none)

/-- Run one scheduler slice for task 1 (`false`) or task 2 (`true`). -/
def schedStep (s : ConcState) (which : Bool) : ConcState :=
  if which then
    let (ph, n, prod) := phaseStep s.nonce s.task2
    { s with task2 := ph, nonce := n
             producedNonces := s.producedNonces ++ prod.toList }
  else
    let (ph, n, prod) := phaseStep s.nonce s.task1
    { s with task1 := ph, nonce := n
             producedNonces := s.producedNonces ++ prod.toList }

/-- Run a whole schedule (a list of scheduler choices). -/
def runSchedule (s : ConcState) (sched : List Bool) : ConcState :=
  sched.foldl schedStep s

/-- Initial state: both handlers have passed the gate and are about to enter
`executeFlashLoan`, the tracked nonce is `n`, nothing signed yet. -/
def initConc (n : Nat) : ConcState :=
  { nonce := n, task1 := .start, task2 := .start, producedNonces := [] }

end MEV

namespace MEV

/-- C3 helper: an opportunity with confidence exactly 0.85. -/
def oppAtThreshold : Opportunity :=
  { isProfitable := true, estimatedProfit := weiPerEther, aiScore := 85 / 100 }

/-- C3 helper: an opportunity with confidence 0.851. -/
def oppAboveThreshold : Opportunity :=
  { isProfitable := true, estimatedProfit := weiPerEther, aiScore := 851 / 1000 }

end MEV

namespace MEV

lemma loanAmountOf_eq_min (p : Nat) : loanAmountOf p = min (p * 10) MAX_LOAN_WEI := by
  have hM : MAX_LOAN_WEI = 100000000000000000000000 := by
    norm_num [MAX_LOAN_WEI, MAX_LOAN_AMOUNT_ETH, weiPerEther]
  simp only [loanAmountOf, hM]
  split <;> omega

lemma MAX_LOAN_WEI_eq : MAX_LOAN_WEI = 100000000000000000000000 := by
  norm_num [MAX_LOAN_WEI, MAX_LOAN_AMOUNT_ETH, weiPerEther]

lemma MIN_PROFIT_THRESHOLD_eq : MIN_PROFIT_THRESHOLD = 50000000000000000 := by
  norm_num [MIN_PROFIT_THRESHOLD]

/-- C4: the flash-loan amount equals `min(estimatedProfit × 10, MAX_LOAN_CAP)`;
when `estimatedProfit × 10` exceeds the cap it equals exactly the cap; and under
the pipeline's precondition (profit above the 0.05-ether floor) the amount is
positive and never exceeds the cap. -/
theorem loan_sizing_correct :
    (∀ p : Nat, loanAmountOf p = min (p * 10) MAX_LOAN_WEI)
    ∧ (∀ p : Nat, p * 10 > MAX_LOAN_WEI → loanAmountOf p = MAX_LOAN_WEI)
    ∧ (∀ p : Nat, MIN_PROFIT_THRESHOLD < p →
        0 < loanAmountOf p ∧ loanAmountOf p ≤ MAX_LOAN_WEI) := by
  refine ⟨loanAmountOf_eq_min, fun p hp => ?_, fun p hp => ?_⟩
  · rw [loanAmountOf_eq_min]; omega
  · rw [loanAmountOf_eq_min]
    rw [MAX_LOAN_WEI_eq] at *
    rw [MIN_PROFIT_THRESHOLD_eq] at hp
    omega

/-- Witness for C4 at concrete profits: `10^22 + 1` wei (cap binds) and
`10^17` wei (above the floor, cap does not bind). -/
theorem loan_sizing_correct_witness :
    loanAmountOf (10 ^ 22 + 1) = MAX_LOAN_WEI ∧
    (0 < loanAmountOf (10 ^ 17) ∧ loanAmountOf (10 ^ 17) ≤ MAX_LOAN_WEI) :=
  ⟨loan_sizing_correct.2.1 (10 ^ 22 + 1)
      (by rw [MAX_LOAN_WEI_eq]; norm_num),
   loan_sizing_correct.2.2 (10 ^ 17)
      (by rw [MIN_PROFIT_THRESHOLD_eq]; norm_num)⟩

/-- C10: loan sizing is a deterministic function of the estimated profit alone,
monotone non-decreasing in it, and idempotent at the cap: any profit at or
above `cap / 10` yields exactly the cap. -/
theorem loan_sizing_monotone_cap_idempotent :
    (∀ p1 p2 : Nat, p1 ≤ p2 → loanAmountOf p1 ≤ loanAmountOf p2)
    ∧ (∀ p : Nat, MAX_LOAN_WEI / 10 ≤ p → loanAmountOf p = MAX_LOAN_WEI) := by
  constructor
  · intro p1 p2 h
    rw [loanAmountOf_eq_min, loanAmountOf_eq_min]
    exact min_le_min (by omega) le_rfl
  · intro p hp
    rw [loanAmountOf_eq_min]
    rw [MAX_LOAN_WEI_eq] at *
    omega

/-- Witness for C10 at concrete profits `3 ≤ 7` and at `10^22 = cap / 10`. -/
theorem loan_sizing_monotone_cap_idempotent_witness :
    loanAmountOf 3 ≤ loanAmountOf 7 ∧ loanAmountOf (10 ^ 22) = MAX_LOAN_WEI :=
  ⟨loan_sizing_monotone_cap_idempotent.1 3 7 (by norm_num),
   loan_sizing_monotone_cap_idempotent.2 (10 ^ 22)
      (by rw [MAX_LOAN_WEI_eq]; norm_num)⟩

/-- C3: a scored opportunity is forwarded to bundle construction iff it is
profitable and its confidence score is strictly above the 0.85 threshold; in
particular a score of exactly 0.85 is rejected and 0.851 is accepted. -/
theorem confidence_gate_strict :
    (∀ o : Opportunity,
      forwardsToExecution o = true ↔ (o.isProfitable = true ∧ AI_THRESHOLD < o.aiScore))
    ∧ forwardsToExecution oppAtThreshold = false
    ∧ forwardsToExecution oppAboveThreshold = true := by
  refine ⟨fun o => ?_,
    by norm_num [forwardsToExecution, oppAtThreshold, AI_THRESHOLD],
    by norm_num [forwardsToExecution, oppAboveThreshold, AI_THRESHOLD]⟩
  simp [forwardsToExecution, gt_iff_lt]

end MEV

namespace MEV

lemma nonceStep_attempt (n p b : Nat)
    (sim : SignedBundle → Nat → SimulationResult) :
    nonceStep n (.attempt p b sim) =
      match (sim (builtBundle n p b) (b + 1)).error with
      | some _ => n
      | none => n + 1 := by
  simp only [nonceStep, executeFlashLoanBody]
  cases (sim (builtBundle n p b) (b + 1)).error <;> rfl

lemma nonceStep_le (n : Nat) (e : NonceEvent) : n ≤ nonceStep n e := by
  cases e with
  | attempt p b sim =>
    rw [nonceStep_attempt]
    cases (sim (builtBundle n p b) (b + 1)).error <;> simp
  | resync c =>
    simp only [nonceStep, periodicResync]
    split <;> simp
    omega

/-- C1: over any sequence of submission attempts and periodic resyncs, the
tracked nonce never decreases (both per step and over whole traces); it
increases by exactly 1 when the attempt's simulation is clean (the bundle is
sent), and is unchanged when the simulation rejects the attempt. -/
theorem nonce_monotonicity :
    (∀ (n : Nat) (e : NonceEvent), n ≤ nonceStep n e)
    ∧ (∀ (evs : List NonceEvent) (n : Nat), n ≤ evs.foldl nonceStep n)
    ∧ (∀ (n p b : Nat) (sim : SignedBundle → Nat → SimulationResult),
        (sim (builtBundle n p b) (b + 1)).error = none →
          nonceStep n (.attempt p b sim) = n + 1)
    ∧ (∀ (n p b : Nat) (sim : SignedBundle → Nat → SimulationResult) (msg : String),
        (sim (builtBundle n p b) (b + 1)).error = some msg →
          nonceStep n (.attempt p b sim) = n) := by
  refine ⟨nonceStep_le, ?_, ?_, ?_⟩
  · intro evs
    induction evs with
    | nil => intro n; simp
    | cons e evs ih =>
      intro n
      calc n ≤ nonceStep n e := nonceStep_le n e
        _ ≤ (e :: evs).foldl nonceStep n := by simpa using ih (nonceStep n e)
  · intro n p b sim h
    rw [nonceStep_attempt, h]
  · intro n p b sim msg h
    rw [nonceStep_attempt, h]

/-- Witness for C1: a clean simulation advances the nonce from 7 to 8; a
rejecting simulation leaves it at 7. -/
theorem nonce_monotonicity_witness :
    nonceStep 7 (.attempt 1 2 (fun _ _ => ⟨none⟩)) = 8 ∧
    nonceStep 7 (.attempt 1 2 (fun _ _ => ⟨some "revert"⟩)) = 7 :=
  ⟨nonce_monotonicity.2.2.1 7 1 2 (fun _ _ => ⟨none⟩) rfl,
   nonce_monotonicity.2.2.2 7 1 2 (fun _ _ => ⟨some "revert"⟩) "revert" rfl⟩

/-- C5: when the relay's simulation of the built bundle carries an error,
`executeFlashLoan` returns normally (no fatal `throw`) with a rejected
outcome, `sendBundle` is never reached (`sent = none`), and the tracked nonce
is unchanged. -/
theorem simulation_gate_blocks_submission :
    ∀ (n p b : Nat) (sim : SignedBundle → Nat → SimulationResult) (msg : String),
      (sim (builtBundle n p b) (b + 1)).error = some msg →
        executeFlashLoan true (some n) p b sim =
          .ok { signed := builtBundle n p b, sent := none
                nonce := n, outcome := .rejected } := by
  intro n p b sim msg h
  simp only [executeFlashLoan, executeFlashLoanBody, h]

/-- Witness for C5: a relay whose simulation always fails yields the rejected
outcome with untouched nonce 3. -/
theorem simulation_gate_blocks_submission_witness :
    executeFlashLoan true (some 3) 2 10 (fun _ _ => ⟨some "sim failed"⟩) =
      .ok { signed := builtBundle 3 2 10, sent := none
            nonce := 3, outcome := .rejected } :=
  simulation_gate_blocks_submission 3 2 10 (fun _ _ => ⟨some "sim failed"⟩)
    "sim failed" rfl

/-- C6: if either venue's reserve read fails, the scorer returns the
non-profitable, zero-profit, zero-confidence opportunity, and (being a total
function into `Opportunity`) never propagates the fetch error to its caller. -/
theorem scorer_fetch_failure_safe :
    ∀ (e : String) (other : Except String Reserves) (score : Rat),
      analyzeOpportunity (.error e) other score =
        { isProfitable := false, estimatedProfit := 0, aiScore := 0 }
      ∧ analyzeOpportunity other (.error e) score =
        { isProfitable := false, estimatedProfit := 0, aiScore := 0 } := by
  intro e other score
  cases other <;> exact ⟨rfl, rfl⟩

/-- C7: resync leaves the tracked nonce unchanged when the chain-reported count
is at most the tracked value, raises it to exactly the reported count when that
is higher, and never lowers it. -/
theorem resync_never_regresses :
    ∀ (n c : Nat),
      (c ≤ n → periodicResync (some n) c = some n)
      ∧ (n < c → periodicResync (some n) c = some c)
      ∧ (∀ m, periodicResync (some n) c = some m → n ≤ m) := by
  intro n c
  refine ⟨fun h => ?_, fun h => ?_, fun m hm => ?_⟩
  · simp only [periodicResync]; split <;> [omega; rfl]
  · simp only [periodicResync]; split <;> [rfl; omega]
  · simp only [periodicResync] at hm
    split at hm <;> (injection hm with hm; omega)

/-- Witness for C7 at tracked value 5: reported 3 leaves 5, reported 9 sets 9. -/
theorem resync_never_regresses_witness :
    periodicResync (some 5) 3 = some 5 ∧ periodicResync (some 5) 9 = some 9 :=
  ⟨(resync_never_regresses 5 3).1 (by norm_num),
   (resync_never_regresses 5 9).2.1 (by norm_num)⟩

/-- C8: the pending handler discards silently (scorer never invoked, no error
raised) when the fetched transaction is absent or lacks payload data, and
otherwise invokes the scorer on the fetched transaction. -/
theorem pending_handler_guard :
    ∀ (scorer : PendingTx → Opportunity),
      handlePending none scorer = none
      ∧ (∀ tx : PendingTx, tx.data = none → handlePending (some tx) scorer = none)
      ∧ (∀ (tx : PendingTx) (d : String), tx.data = some d →
          handlePending (some tx) scorer = some (scorer tx)) := by
  intro scorer
  refine ⟨rfl, fun tx h => ?_, fun tx d h => ?_⟩
  · simp only [handlePending, h]
  · simp only [handlePending, h]

/-- Witness for C8: a dataless transaction is discarded; one with calldata is
scored. -/
theorem pending_handler_guard_witness :
    handlePending (some { hash := "0xa", data := none })
      (fun _ => { isProfitable := false, estimatedProfit := 0, aiScore := 0 }) = none
    ∧ handlePending (some { hash := "0xb", data := some "0xdead" })
      (fun _ => { isProfitable := false, estimatedProfit := 0, aiScore := 0 }) =
        some { isProfitable := false, estimatedProfit := 0, aiScore := 0 } :=
  ⟨(pending_handler_guard _).2.1 { hash := "0xa", data := none } rfl,
   (pending_handler_guard _).2.2 { hash := "0xb", data := some "0xdead" } "0xdead" rfl⟩

end MEV

namespace MEV

/-- Case analysis of `analyzeOpportunity`'s price branch (lines 360-379) for
well-defined prices: profitable iff the gap strictly exceeds 1% of the venue-A
reference price (the code's `difference > priceA/100` in integer arithmetic is
equivalent to `priceA < difference * 100`) and the derived estimate exceeds the
0.05-ether floor. -/
lemma analyzeOpportunity_profitability_cases :
    ∀ (rA rB : Reserves) (score : Rat),
      ((analyzeOpportunity (.ok rA) (.ok rB) score).isProfitable = true ↔
        (priceOf rA < priceDifference rA rB * 100 ∧
         MIN_PROFIT_THRESHOLD < potentialProfitOf rA rB))
      ∧ (¬ (priceOf rA < priceDifference rA rB * 100 ∧
            MIN_PROFIT_THRESHOLD < potentialProfitOf rA rB) →
          analyzeOpportunity (.ok rA) (.ok rB) score =
            { isProfitable := false, estimatedProfit := 0, aiScore := 0 })
      ∧ ((analyzeOpportunity (.ok rA) (.ok rB) score).isProfitable = true →
          analyzeOpportunity (.ok rA) (.ok rB) score =
            { isProfitable := true, estimatedProfit := potentialProfitOf rA rB,
              aiScore := score }) := by
  intro rA rB score
  have hdiv : priceOf rA / 100 < priceDifference rA rB ↔
      priceOf rA < priceDifference rA rB * 100 :=
    Nat.div_lt_iff_lt_mul (by norm_num)
  simp only [analyzeOpportunity, gt_iff_lt]
  constructor
  · split
    · split
      · simp_all
      · simp_all
    · simp_all [hdiv]
  constructor
  · intro hnot
    split
    · split
      · exact absurd ⟨hdiv.mp (by assumption), by assumption⟩ hnot
      · rfl
    · rfl
  · split
    · split
      · intro _; rfl
      · intro h; exact absurd h (by simp)
    · intro h; exact absurd h (by simp)

/-- ethers `BigNumber.div` throws on a zero divisor; `none` models the thrown
fault. -/
def bigDiv (a b : Nat) : Option Nat :=
  if b = 0 then none else some (a / b)

/-- `reserves[0].mul(parseEther("1")).div(reserves[1])` (lines 361-362) with
the zero-divisor fault of `BigNumber.div` made explicit. -/
def priceOfChecked (r : Reserves) : Option Nat :=
  bigDiv (r.reserve0 * weiPerEther) r.reserve1

/-- `analyzeOpportunity` (lines 345-380) with the division-by-zero fault of the
two price computations made explicit: `none` is the thrown error, which escapes
the function — the `try/catch` wraps only the `Promise.all` fetch, not lines
361-362 — and `some o` is a normal return. The later divisions by the literal
100 cannot fault. -/
def analyzeOpportunityChecked (fetchA fetchB : Except String Reserves)
    (score : Rat) : Option Opportunity :=
  match fetchA, fetchB with
  | .ok rA, .ok rB =>
    match priceOfChecked rA, priceOfChecked rB with
    | some priceA, some priceB =>
      let difference := ((priceA : Int) - (priceB : Int)).natAbs
      some (if difference > priceA / 100 then
              let potentialProfit := difference / 100 * weiPerEther
              if potentialProfit > MIN_PROFIT_THRESHOLD then
                { isProfitable := true, estimatedProfit := potentialProfit,
                  aiScore := score }
              else { isProfitable := false, estimatedProfit := 0, aiScore := 0 }
            else { isProfitable := false, estimatedProfit := 0, aiScore := 0 })
    | _, _ => none
  | _, _ => some { isProfitable := false, estimatedProfit := 0, aiScore := 0 }

/-- When both price divisions are well defined, the checked scorer returns
normally with exactly the total model's answer. -/
lemma analyzeOpportunityChecked_eq (rA rB : Reserves) (score : Rat)
    (hA : rA.reserve1 ≠ 0) (hB : rB.reserve1 ≠ 0) :
    analyzeOpportunityChecked (.ok rA) (.ok rB) score
      = some (analyzeOpportunity (.ok rA) (.ok rB) score) := by
  simp only [analyzeOpportunityChecked, analyzeOpportunity, priceOfChecked,
    bigDiv, priceOf, priceDifference, potentialProfitOf, if_neg hA, if_neg hB]

/-- C9 counterexample: the reserve pair (1,1) against (5,0) is successfully
fetched, yet the venue-B price computation divides by zero — `BigNumber.div`
throws at line 362, outside the `try/catch` — so the scorer returns no
`Opportunity` at all instead of a non-profitable one, refuting the claim as
stated for every pair of successfully fetched reserve states. -/
theorem scorer_zero_reserve_fault :
    analyzeOpportunityChecked (.ok ⟨1, 1⟩) (.ok ⟨5, 0⟩) (9 / 10) = none := rfl

/-- C9 (amended): for every pair of successfully fetched venue reserve states
with well-defined prices (nonzero `reserve1` denominators, so the BigNumber
divisions do not fault) the scorer returns normally, and it marks the
opportunity profitable iff the absolute price difference exceeds 1% of the
venue-A reference price (`priceA < difference * 100`, equivalent to the code's
`difference > priceA/100` in integer arithmetic) and the derived profit
estimate exceeds the 0.05-ether floor; in every other such case it returns
`isProfitable = false`, zero profit and zero confidence, and when profitable it
carries exactly the derived estimate and the supplied confidence score. -/
theorem scorer_profitability_iff_nonzero_reserves :
    ∀ (rA rB : Reserves) (score : Rat),
      rA.reserve1 ≠ 0 → rB.reserve1 ≠ 0 →
      analyzeOpportunityChecked (.ok rA) (.ok rB) score
          = some (analyzeOpportunity (.ok rA) (.ok rB) score)
      ∧ ((analyzeOpportunity (.ok rA) (.ok rB) score).isProfitable = true ↔
          (priceOf rA < priceDifference rA rB * 100 ∧
           MIN_PROFIT_THRESHOLD < potentialProfitOf rA rB))
      ∧ (¬ (priceOf rA < priceDifference rA rB * 100 ∧
            MIN_PROFIT_THRESHOLD < potentialProfitOf rA rB) →
          analyzeOpportunity (.ok rA) (.ok rB) score =
            { isProfitable := false, estimatedProfit := 0, aiScore := 0 })
      ∧ ((analyzeOpportunity (.ok rA) (.ok rB) score).isProfitable = true →
          analyzeOpportunity (.ok rA) (.ok rB) score =
            { isProfitable := true, estimatedProfit := potentialProfitOf rA rB,
              aiScore := score }) := by
  intro rA rB score hA hB
  exact ⟨analyzeOpportunityChecked_eq rA rB score hA hB,
    (analyzeOpportunity_profitability_cases rA rB score).1,
    (analyzeOpportunity_profitability_cases rA rB score).2.1,
    (analyzeOpportunity_profitability_cases rA rB score).2.2⟩

/-- Witness for amended C9: reserves (2,1) against (1,1) — nonzero
denominators, prices 2·10^18 and 10^18, a gap far above 1% of the reference,
an estimate above the floor — the checked scorer returns normally with the
profitable opportunity carrying the supplied score. -/
theorem scorer_profitability_iff_nonzero_reserves_witness :
    analyzeOpportunityChecked (.ok ⟨2, 1⟩) (.ok ⟨1, 1⟩) (9 / 10)
      = some (analyzeOpportunity (.ok ⟨2, 1⟩) (.ok ⟨1, 1⟩) (9 / 10))
    ∧ analyzeOpportunity (.ok ⟨2, 1⟩) (.ok ⟨1, 1⟩) (9 / 10) =
      { isProfitable := true
        estimatedProfit := potentialProfitOf ⟨2, 1⟩ ⟨1, 1⟩
        aiScore := 9 / 10 } :=
  ⟨(scorer_profitability_iff_nonzero_reserves ⟨2, 1⟩ ⟨1, 1⟩ (9 / 10)
      (by decide) (by decide)).1,
   (scorer_profitability_iff_nonzero_reserves ⟨2, 1⟩ ⟨1, 1⟩ (9 / 10)
      (by decide) (by decide)).2.2.2
      ((scorer_profitability_iff_nonzero_reserves ⟨2, 1⟩ ⟨1, 1⟩ (9 / 10)
          (by decide) (by decide)).2.1.mpr
        (by
          constructor
          · show priceOf ⟨2, 1⟩ < priceDifference ⟨2, 1⟩ ⟨1, 1⟩ * 100
            norm_num [priceOf, priceDifference, weiPerEther]
          · show MIN_PROFIT_THRESHOLD < potentialProfitOf ⟨2, 1⟩ ⟨1, 1⟩
            norm_num [MIN_PROFIT_THRESHOLD, potentialProfitOf, priceDifference,
              priceOf, weiPerEther]))⟩

end MEV

namespace MEV

/-- C2: the source contains no mutual exclusion around the
build-sign-submit-commit sequence, so the serialization the specification
requires does not hold: with the tracked nonce at 5 and two `pending` handlers
both past the gate, the schedule in which each reaches `signBundle` before
either completes `sendBundle` (every step in between is an `await`) produces
two SignedBundles both carrying nonce 5 — and both tasks then run
`this.nonce++`, leaving the tracker at 7 although only nonce 5 and 6 bundles
exist, with the two bundles at 5 mutually exclusive on chain. -/
theorem concurrent_duplicate_nonce :
    (runSchedule (initConc 5) [false, true]).producedNonces = [5, 5]
    ∧ (runSchedule (initConc 5) [false, true, false, true]).producedNonces = [5, 5]
    ∧ (runSchedule (initConc 5) [false, true, false, true]).nonce = 7 := by
  refine ⟨rfl, rfl, rfl⟩

end MEV
